import Mathlib

/-!
Verification development for the dc03/parsers JSON reader
(`src/utf8.rs`, `src/json/lexer.rs`, `src/json.rs`).

The embedding is a shallow one:

* Bytes and decoded codepoints are `Nat` (the Rust code works with `u8`,
  `u32` and `char`; `char::from_u32` validation is modelled explicitly).
* The byte source is a `List Nat` (the Rust `Bytes` iterator over a file or
  string); the lexer state is the remaining bytes plus the one-character
  pushback slot (`putback`/`has_putback` pair, modelled as `Option Nat`).
* Fallible Rust code returning `Result` is modelled with `R`; a Rust
  `panic!` or a failing `.unwrap()` is the `R.fatal` outcome, and an
  infinite loop is observed as `R.diverge`.
* The recursive lexer/parser functions take explicit fuel; wrappers supply
  fuel derived from the input length that is large enough for every
  terminating run, and the genuinely non-terminating run (the unterminated
  string loop, which re-reads the EOF sentinel forever) yields `.diverge`
  for every fuel.
* `f32` conversion of a digit-only lexeme (`str::parse::<f32>`) is modelled
  by its exact decimal value; every number appearing in the theorems below
  is far below 2^24, where `f32` is exact.
-/

set_option maxRecDepth 4000

namespace Parsers

/-- Outcome of running a piece of the Rust code: a `Result::Ok`, a
`Result::Err` with its message, a `panic!`/failed `.unwrap()` (`fatal`),
or an infinite loop (`diverge`). -/
inductive R (α : Type) where
  | ok : α → R α
  | err : String → R α
  | fatal : String → R α
  | diverge : R α
  deriving DecidableEq, Repr

/-! ## UTF-8 decoder (`src/utf8.rs`) -/

/-- `UTF8HeadType` from `src/utf8.rs`. -/
inductive UTF8HeadType where
  | Single
  | Double
  | Triple
  | Quad
  | Unknown
  deriving DecidableEq, Repr

/-- `get_head_type`: classify the first byte by its high-bit pattern. -/
def get_head_type (head : Nat) : UTF8HeadType :=
  if head >>> 7 = 0 then .Single
  else if head >>> 5 = 0b110 then .Double
  else if head >>> 4 = 0b1110 then .Triple
  else if head >>> 3 = 0b11110 then .Quad
  else .Unknown

/-- `get_head_data`: strip the leading-byte marker. -/
def get_head_data (head : Nat) : Option Nat :=
  match get_head_type head with
  | .Single => some (head &&& 0b01111111)
  | .Double => some (head &&& 0b00011111)
  | .Triple => some (head &&& 0b00001111)
  | .Quad => some (head &&& 0b00000111)
  | .Unknown => none

/-- `tail_data`: `(tail as u8 & 0b00111111) as u32`. -/
def tail_data (tail : Nat) : Nat :=
  (tail % 256) &&& 0b00111111

/-- `tail_masked`: continuation byte at distance `pos` from the end,
shifted into position `6*(pos-1)`. -/
def tail_masked (tail pos : Nat) : Nat :=
  tail_data tail <<< (6 * (pos - 1))

/-- `char::from_u32`: valid iff not a surrogate and at most `0x10FFFF`. -/
def charFromU32 (n : Nat) : Option Nat :=
  if n < 0xD800 ∨ (0xDFFF < n ∧ n < 0x110000) then some n else none

/-- `next_codepoint_head` from `src/utf8.rs`, over the remaining byte list.
The `get_next` closures passed by the lexer (`file.next().unwrap().unwrap()`
and `str.next().unwrap()`) panic when the source is exhausted, hence the
`.fatal` outcome when a continuation byte is demanded from an empty list.
Note two faithfully-kept quirks of the source: in the two-byte arm the head
payload is shifted as a `u8` (so the result is truncated mod 256 before the
cast to `u32`), and in the four-byte arm the head payload is shifted by 12
rather than 18. -/
def next_codepoint_head (head : Nat) (src : List Nat) : R (Option Nat) × List Nat :=
  if head >>> 7 = 0 then
    (.ok (some head), src)
  else if head >>> 5 = 0b110 then
    match src with
    | [] => (.fatal "unwrap of None", [])
    | tail :: s1 =>
      match get_head_data head with
      | some d => (.ok (charFromU32 (((d <<< 6) % 256) ||| tail_masked tail 1)), s1)
      | none => (.ok none, s1)
  else if head >>> 4 = 0b1110 then
    match src with
    | [] => (.fatal "unwrap of None", [])
    | t1 :: s1 =>
      match s1 with
      | [] => (.fatal "unwrap of None", [])
      | t2 :: s2 =>
        match get_head_data head with
        | some d => (.ok (charFromU32 ((d <<< 12) ||| tail_masked t1 2 ||| tail_masked t2 1)), s2)
        | none => (.ok none, s2)
  else if head >>> 3 = 0b11110 then
    match src with
    | [] => (.fatal "unwrap of None", [])
    | t1 :: s1 =>
      match s1 with
      | [] => (.fatal "unwrap of None", [])
      | t2 :: s2 =>
        match s2 with
        | [] => (.fatal "unwrap of None", [])
        | t3 :: s3 =>
          match get_head_data head with
          | some d =>
            (.ok (charFromU32 ((d <<< 12) ||| tail_masked t1 3 ||| tail_masked t2 2 ||| tail_masked t3 1)), s3)
          | none => (.ok none, s3)
  else (.ok none, src)

/-! ## Lexer (`src/json/lexer.rs`) -/

/-- `JsonTokenType` from `src/json/lexer.rs`. -/
inductive JsonTokenType where
  | LeftBrace
  | RightBrace
  | LeftBracket
  | RightBracket
  | Comma
  | Colon
  | String
  | Number
  | Boolean
  | Null
  | EOF
  | None
  deriving DecidableEq, Repr

/-- `Token(String, JsonTokenType)`: the lexeme is the list of codepoints. -/
structure Token where
  lexeme : List Nat
  ttype : JsonTokenType
  deriving DecidableEq, Repr

/-- Lexer cursor state: the remaining bytes of the source and the
`putback`/`has_putback` pair as an `Option`. -/
structure LexState where
  src : List Nat
  pushback : Option Nat
  deriving DecidableEq, Repr

/-- `next_char`: consume the pushback if present; otherwise read one byte
and decode a codepoint, with end of source yielding the sentinel `'\0'`. -/
def next_char (L : LexState) : R Nat × LexState :=
  match L.pushback with
  | some p => (.ok p, { L with pushback := none })
  | none =>
    match L.src with
    | [] => (.ok 0, L)
    | b :: rest =>
      match next_codepoint_head b rest with
      | (.ok (some c), rest') => (.ok c, ⟨rest', none⟩)
      | (.ok none, rest') => (.err "Invalid UTF-8", ⟨rest', none⟩)
      | (.err m, rest') => (.err m, ⟨rest', none⟩)
      | (.fatal m, rest') => (.fatal m, ⟨rest', none⟩)
      | (.diverge, rest') => (.diverge, ⟨rest', none⟩)

/-- `putback`: store one character, panicking if a pushback is pending. -/
def putback (L : LexState) (ch : Nat) : R LexState :=
  match L.pushback with
  | some _ => .fatal "putback called twice"
  | none => .ok { L with pushback := some ch }

/-- `try_match_char`: consume the next character iff it equals `ch`; on a
mismatch from the source the character is stored in the pushback slot
(direct field assignment in the source, the slot is known to be empty). -/
def try_match_char (L : LexState) (ch : Nat) : R Bool × LexState :=
  match L.pushback with
  | some p =>
    if p = ch then (.ok true, { L with pushback := none })
    else (.ok false, L)
  | none =>
    match next_char L with
    | (.ok ch2, L') =>
      if ch = ch2 then (.ok true, L')
      else (.ok false, { L' with pushback := some ch2 })
    | (.err _, L') => (.ok false, L')
    | (.fatal m, L') => (.fatal m, L')
    | (.diverge, L') => (.diverge, L')

/-- Sequence of `try_match_char` calls joined by `&&` (short-circuiting), as
in the `true`/`false`/`null` arms of `next_token`. -/
def match_chars : LexState → List Nat → R Bool × LexState
  | L, [] => (.ok true, L)
  | L, c :: rest =>
    match try_match_char L c with
    | (.ok true, L') => match_chars L' rest
    | (.ok false, L') => (.ok false, L')
    | (.err m, L') => (.err m, L')
    | (.fatal m, L') => (.fatal m, L')
    | (.diverge, L') => (.diverge, L')

/-- The 25 codepoints with the Unicode `White_Space` property, which is what
Rust `char::is_whitespace` tests. -/
def whitespaceCps : List Nat :=
  [0x09, 0x0A, 0x0B, 0x0C, 0x0D, 0x20, 0x85, 0xA0, 0x1680,
   0x2000, 0x2001, 0x2002, 0x2003, 0x2004, 0x2005, 0x2006, 0x2007,
   0x2008, 0x2009, 0x200A, 0x2028, 0x2029, 0x202F, 0x205F, 0x3000]

/-- `char::is_whitespace`. -/
def is_whitespace (c : Nat) : Bool :=
  decide (c ∈ whitespaceCps)

/-- `char::is_ascii_digit`. -/
def is_ascii_digit (c : Nat) : Bool :=
  decide (48 ≤ c ∧ c ≤ 57)

/-- `char::is_ascii_punctuation`. -/
def is_ascii_punctuation (c : Nat) : Bool :=
  decide ((0x21 ≤ c ∧ c ≤ 0x2F) ∨ (0x3A ≤ c ∧ c ≤ 0x40) ∨
    (0x5B ≤ c ∧ c ≤ 0x60) ∨ (0x7B ≤ c ∧ c ≤ 0x7E))

/-- The string-accumulation loop of `next_token` (the `'"'` arm): read
characters into the accumulator until an unescaped `'"'`.  When the source
is exhausted `next_char` keeps returning the `'\0'` sentinel without
consuming anything, so the Rust loop never terminates; the fuel runs out on
an otherwise-stationary state and the run is reported as `.diverge`. -/
def lexStringF : Nat → List Nat → LexState → R (List Nat) × LexState
  | 0, _, L => (.diverge, L)
  | fuel + 1, acc, L =>
    match next_char L with
    | (.ok c, L') =>
      if c = 34 then (.ok acc, L')
      else lexStringF fuel (acc ++ [c]) L'
    | (.err m, L') => (.err m, L')
    | (.fatal m, L') => (.fatal m, L')
    | (.diverge, L') => (.diverge, L')

/-- The digit-accumulation loop of `next_token` (the `'0'..='9'` arm):
`loop { s.push(ch); ch = next_char()?; if !ch.is_ascii_digit() break }`
followed by `putback(ch)`.  Entered with `acc = [ch]` (from
`String::from(ch.to_string())`), so the first digit is pushed a second time
by the first loop iteration. -/
def lexNumberF : Nat → List Nat → Nat → LexState → R (List Nat) × LexState
  | 0, _, _, L => (.diverge, L)
  | fuel + 1, acc, ch, L =>
    let acc2 := acc ++ [ch]
    match next_char L with
    | (.ok c2, L') =>
      if is_ascii_digit c2 then lexNumberF fuel acc2 c2 L'
      else
        match putback L' c2 with
        | .ok L2 => (.ok acc2, L2)
        | .err m => (.err m, L')
        | .fatal m => (.fatal m, L')
        | .diverge => (.diverge, L')
    | (.err m, L') => (.err m, L')
    | (.fatal m, L') => (.fatal m, L')
    | (.diverge, L') => (.diverge, L')

/-- The dispatch on the first character of a token, mirroring the arm order
of the Rust `match` in `next_token` exactly.  Since each of the three
recursive continuations is invoked at exactly one argument tuple,
`next_tokenF` passes their results: `recurRes` is the recursive
`self.next_token()` call of the whitespace arm, `strRes`/`numRes` the
results of the string and digit accumulation loops. -/
def token_dispatch (recurRes : R Token × LexState)
    (strRes : R (List Nat) × LexState)
    (numRes : R (List Nat) × LexState)
    (ch : Nat) (L' : LexState) : R Token × LexState :=
  if ch = 123 then (.ok ⟨[123], .LeftBrace⟩, L')
  else if ch = 125 then (.ok ⟨[125], .RightBrace⟩, L')
  else if ch = 91 then (.ok ⟨[91], .LeftBracket⟩, L')
  else if ch = 93 then (.ok ⟨[93], .RightBracket⟩, L')
  else if ch = 44 then (.ok ⟨[44], .Comma⟩, L')
  else if ch = 58 then (.ok ⟨[58], .Colon⟩, L')
  else if ch = 34 then
    match strRes with
    | (.ok s, L2) => (.ok ⟨s, .String⟩, L2)
    | (.err m, L2) => (.err m, L2)
    | (.fatal m, L2) => (.fatal m, L2)
    | (.diverge, L2) => (.diverge, L2)
  else if is_ascii_digit ch then
    match numRes with
    | (.ok s, L2) => (.ok ⟨s, .Number⟩, L2)
    | (.err m, L2) => (.err m, L2)
    | (.fatal m, L2) => (.fatal m, L2)
    | (.diverge, L2) => (.diverge, L2)
  else if ch = 116 then
    match match_chars L' [114, 117, 101] with
    | (.ok true, L2) => (.ok ⟨[116, 114, 117, 101], .Boolean⟩, L2)
    | (.ok false, L2) => (.err "expected true", L2)
    | (.err m, L2) => (.err m, L2)
    | (.fatal m, L2) => (.fatal m, L2)
    | (.diverge, L2) => (.diverge, L2)
  else if ch = 102 then
    match match_chars L' [97, 108, 115, 101] with
    | (.ok true, L2) => (.ok ⟨[102, 97, 108, 115, 101], .Boolean⟩, L2)
    | (.ok false, L2) => (.err "expected false", L2)
    | (.err m, L2) => (.err m, L2)
    | (.fatal m, L2) => (.fatal m, L2)
    | (.diverge, L2) => (.diverge, L2)
  else if ch = 110 then
    match match_chars L' [117, 108, 108] with
    | (.ok true, L2) => (.ok ⟨[110, 117, 108, 108], .Null⟩, L2)
    | (.ok false, L2) => (.err "expected null", L2)
    | (.err m, L2) => (.err m, L2)
    | (.fatal m, L2) => (.fatal m, L2)
    | (.diverge, L2) => (.diverge, L2)
  else if ch = 0 then (.ok ⟨[], .EOF⟩, L')
  else if is_whitespace ch then recurRes
  else if is_ascii_punctuation ch then (.err "unexpected punctuation", L')
  else (.err "unexpected character", L')

/-- `next_token` from `src/json/lexer.rs`, with fuel for the whitespace
retry (`_ if ch.is_whitespace() => self.next_token()`) and for the two
token loops. -/
def next_tokenF : Nat → LexState → R Token × LexState
  | 0, L => (.diverge, L)
  | fuel + 1, L =>
    match next_char L with
    | (.ok ch, L') =>
      token_dispatch (next_tokenF fuel L') (lexStringF fuel [] L')
        (lexNumberF fuel [ch] ch L') ch L'
    | (.err m, L') => (.err m, L')
    | (.fatal m, L') => (.fatal m, L')
    | (.diverge, L') => (.diverge, L')

/-- Number of pushback characters held (0 or 1). -/
def pbCount (L : LexState) : Nat :=
  match L.pushback with
  | some _ => 1
  | none => 0

/-- Size of the lexer state: remaining bytes plus pending pushback.  Every
fuel step of `next_tokenF` either consumes at least one unit of this
measure or finishes without recursing, except for the stationary
unterminated-string state, which diverges at every fuel. -/
def measL (L : LexState) : Nat :=
  L.src.length + pbCount L

/-- `next_token` with always-sufficient fuel (see `next_tokenF_ext`). -/
def next_token (L : LexState) : R Token × LexState :=
  next_tokenF (measL L + 2) L

/-! ## Parser (`src/json.rs`) -/

/-- `JsonValue`.  `Number` holds the exact decimal value of the digit-only
lexeme (`str::parse::<f32>` is exact for integers below 2^24, which covers
every number in this development); `Object` holds the insertion-ordered
association list produced by the `HashMap::insert` calls (duplicate keys
overwrite in place). -/
inductive JsonValue where
  | String : List Nat → JsonValue
  | Number : Nat → JsonValue
  | Object : List (List Nat × JsonValue) → JsonValue
  | Array : List JsonValue → JsonValue
  | Boolean : Bool → JsonValue
  | Nil : JsonValue
  deriving Repr

/-- `HashMap::insert`: overwrite the value of an existing key, otherwise
append the new binding. -/
def objInsert (m : List (List Nat × JsonValue)) (k : List Nat) (v : JsonValue) :
    List (List Nat × JsonValue) :=
  match m with
  | [] => [(k, v)]
  | (k', v') :: rest =>
    if k' = k then (k, v) :: rest else (k', v') :: objInsert rest k v

/-- Decimal value of a digit lexeme, modelling `str::parse::<f32>` on the
digit-only strings the lexer produces (exact below 2^24). -/
def digitsToNat (l : List Nat) : Nat :=
  l.foldl (fun a c => a * 10 + (c - 48)) 0

/-- Parser state: the owned lexer plus the `current`/`next` two-token
lookahead window. -/
structure PState where
  lex : LexState
  cur : Token
  nxt : Token
  deriving DecidableEq, Repr

/-- Outcome of a parser routine: success with a value and the updated
parser state, a propagated `Err(String)`, a panic, or divergence. -/
inductive PRes (α : Type) where
  | ok : α → PState → PRes α
  | err : String → PRes α
  | fatal : String → PRes α
  | diverge : PRes α

/-- `advance`: fail if `current` is already `EOF`; otherwise shift `next`
into `current` and pull a fresh token.  The source calls
`self.lexer.next_token().unwrap()`, so a lexer error is a panic here, not a
propagated error. -/
def advance (p : PState) : PRes Token :=
  if p.cur.ttype = .EOF then .err "unexpected EOF"
  else
    match next_token p.lex with
    | (.ok t, L') => .ok p.nxt ⟨L', p.nxt, t⟩
    | (.err m, _) => .fatal m
    | (.fatal m, _) => .fatal m
    | (.diverge, _) => .diverge

/-- `try_match`: consume and return true iff `next` has the given kind.
The source calls `self.advance().unwrap()`, so an advance failure is a
panic. -/
def try_match (p : PState) (tt : JsonTokenType) : PRes Bool :=
  if p.nxt.ttype = tt then
    match advance p with
    | .ok _ p' => .ok true p'
    | .err m => .fatal m
    | .fatal m => .fatal m
    | .diverge => .diverge
  else .ok false p

/-- `consume`: advance if `next` has the expected kind, else fail with the
given message (here `advance`'s own error propagates via `?`). -/
def consume (p : PState) (expected : JsonTokenType) (msg : String) : PRes Token :=
  if p.nxt.ttype = expected then advance p else .err msg

/-- `parse_string`: consume a `String` token and wrap its lexeme. -/
def parse_string (p : PState) : PRes JsonValue :=
  match consume p .String "Expected string" with
  | .ok t p' => .ok (.String t.lexeme) p'
  | .err m => .err m
  | .fatal m => .fatal m
  | .diverge => .diverge

/-- `parse_number`: consume a `Number` token and convert its lexeme
(`.parse::<f32>().unwrap()`, modelled exactly on the digit-only lexemes the
lexer emits). -/
def parse_number (p : PState) : PRes JsonValue :=
  match consume p .Number "Expected number" with
  | .ok t p' => .ok (.Number (digitsToNat t.lexeme)) p'
  | .err m => .err m
  | .fatal m => .fatal m
  | .diverge => .diverge

/-- `parse_boolean`: consume a `Boolean` token and convert its lexeme
(`.parse::<bool>().unwrap()`, which succeeds exactly on "true"/"false"). -/
def parse_boolean (p : PState) : PRes JsonValue :=
  match consume p .Boolean "Expected boolean" with
  | .ok t p' =>
    if t.lexeme = [116, 114, 117, 101] then .ok (.Boolean true) p'
    else if t.lexeme = [102, 97, 108, 115, 101] then .ok (.Boolean false) p'
    else .fatal "invalid boolean lexeme"
  | .err m => .err m
  | .fatal m => .fatal m
  | .diverge => .diverge

/-- Selector for the mutually recursive grammar rules of `JsonParser`:
`parse_value`, `parse_object` (with its key/value loop carrying the map
built so far) and `parse_array` (with its element loop). -/
inductive Rule where
  | value : Rule
  | object : Rule
  | array : Rule
  | objLoop : List (List Nat × JsonValue) → Rule
  | arrLoop : List JsonValue → Rule

/-- The mutually recursive rules `parse_value` / `parse_object` /
`parse_array` of `src/json.rs`, with fuel for the recursion.  Note the
`Null` arm of `parse_value` returns `Nil` without consuming any token, and
the object rule inserts the binding only when the key parse produced a
`String` (`if let JsonValue::String(key) = key`). -/
def parse_rule : Nat → Rule → PState → PRes JsonValue
  | 0, _, _ => .diverge
  | fuel + 1, .value, p =>
    match p.nxt.ttype with
    | .String => parse_string p
    | .Number => parse_number p
    | .LeftBrace =>
      match advance p with
      | .ok _ p' => parse_rule fuel .object p'
      | .err m => .err m
      | .fatal m => .fatal m
      | .diverge => .diverge
    | .LeftBracket =>
      match advance p with
      | .ok _ p' => parse_rule fuel .array p'
      | .err m => .err m
      | .fatal m => .fatal m
      | .diverge => .diverge
    | .Boolean => parse_boolean p
    | .Null => .ok .Nil p
    | _ => .err "Unexpected input"
  | fuel + 1, .object, p =>
    if p.nxt.ttype = .RightBrace then
      match advance p with
      | .ok _ p' => .ok (.Object []) p'
      | .err m => .err m
      | .fatal m => .fatal m
      | .diverge => .diverge
    else parse_rule fuel (.objLoop []) p
  | fuel + 1, .objLoop acc, p =>
    match parse_string p with
    | .ok key p1 =>
      match consume p1 .Colon "Expected \x27:\x27 after object key" with
      | .ok _ p2 =>
        match parse_rule fuel .value p2 with
        | .ok v p3 =>
          let acc2 :=
            match key with
            | .String k => objInsert acc k v
            | _ => acc
          match try_match p3 .Comma with
          | .ok true p4 => parse_rule fuel (.objLoop acc2) p4
          | .ok false p4 =>
            match try_match p4 .RightBrace with
            | .ok true p5 => .ok (.Object acc2) p5
            | .ok false _ => .err "Expected \x27,\x27 or \x27\x7d\x27"
            | .err m => .err m
            | .fatal m => .fatal m
            | .diverge => .diverge
          | .err m => .err m
          | .fatal m => .fatal m
          | .diverge => .diverge
        | .err m => .err m
        | .fatal m => .fatal m
        | .diverge => .diverge
      | .err m => .err m
      | .fatal m => .fatal m
      | .diverge => .diverge
    | .err m => .err m
    | .fatal m => .fatal m
    | .diverge => .diverge
  | fuel + 1, .array, p =>
    if p.nxt.ttype = .RightBracket then
      match advance p with
      | .ok _ p' => .ok (.Array []) p'
      | .err m => .err m
      | .fatal m => .fatal m
      | .diverge => .diverge
    else parse_rule fuel (.arrLoop []) p
  | fuel + 1, .arrLoop acc, p =>
    match parse_rule fuel .value p with
    | .ok v p1 =>
      let acc2 := acc ++ [v]
      match try_match p1 .Comma with
      | .ok true p2 => parse_rule fuel (.arrLoop acc2) p2
      | .ok false p2 =>
        match try_match p2 .RightBracket with
        | .ok true p3 => .ok (.Array acc2) p3
        | .ok false _ => .err "Expected \x27,\x27 or \x27]\x27"
        | .err m => .err m
        | .fatal m => .fatal m
        | .diverge => .diverge
      | .err m => .err m
      | .fatal m => .fatal m
      | .diverge => .diverge
    | .err m => .err m
    | .fatal m => .fatal m
    | .diverge => .diverge

/-- `parse()`: prime the lookahead with one `advance`, require a
`LeftBrace`, then run the object rule. -/
def parse (fuel : Nat) (p : PState) : PRes JsonValue :=
  match advance p with
  | .ok _ p1 =>
    match consume p1 .LeftBrace "Expected \x27\x7b\x27 at start of object" with
    | .ok _ p2 => parse_rule fuel .object p2
    | .err m => .err m
    | .fatal m => .fatal m
    | .diverge => .diverge
  | .err m => .err m
  | .fatal m => .fatal m
  | .diverge => .diverge

/-- Fresh parser over an in-memory byte buffer (`new_from_string`): both
lookahead tokens start as the `None` sentinel with an empty lexeme. -/
def initP (input : List Nat) : PState :=
  { lex := { src := input, pushback := none },
    cur := ⟨[], .None⟩, nxt := ⟨[], .None⟩ }

/-- Run `parse()` on a byte buffer, with fuel ample for the input. -/
def runParse (input : List Nat) : PRes JsonValue :=
  parse (input.length + 2) (initP input)

/-- The value/error outcome of `parse()`, with the final state stripped. -/
def parseValue (input : List Nat) : R JsonValue :=
  match runParse input with
  | .ok v _ => .ok v
  | .err m => .err m
  | .fatal m => .fatal m
  | .diverge => .diverge

/-- The kind of the parser's lookahead (`next`) token after a successful
parse. -/
def lookaheadType : PRes JsonValue → Option JsonTokenType
  | .ok _ s => some s.nxt.ttype
  | _ => none

/-- Codepoints of an ASCII Lean string literal (also its UTF-8 bytes). -/
def codes (s : String) : List Nat :=
  s.data.map (fun c => c.toNat)

/-- Modelled from the spec (section 4.1): the standard UTF-8 encoding of a
scalar value, with the head payload above all continuation payloads and the
continuation byte at distance `k` from the end contributing its low six
bits at position `6*(k-1)`.  Used as the reference the decoder is compared
against. -/
def utf8EncodeRef (c : Nat) : List Nat :=
  if c < 0x80 then [c]
  else if c < 0x800 then
    [0xC0 ||| (c >>> 6), 0x80 ||| (c &&& 0x3F)]
  else if c < 0x10000 then
    [0xE0 ||| (c >>> 12), 0x80 ||| ((c >>> 6) &&& 0x3F), 0x80 ||| (c &&& 0x3F)]
  else
    [0xF0 ||| (c >>> 18), 0x80 ||| ((c >>> 12) &&& 0x3F),
     0x80 ||| ((c >>> 6) &&& 0x3F), 0x80 ||| (c &&& 0x3F)]

/-- The string loop is stationary on an exhausted source with no pushback:
`next_char` keeps yielding the `'\0'` sentinel, which is not the closing
quote, so the loop never finishes — at every fuel the outcome is
`.diverge`. -/
theorem lexStringF_empty : ∀ (fuel : Nat) (acc : List Nat),
    lexStringF fuel acc ⟨[], none⟩ = (.diverge, ⟨[], none⟩) := by
  intro fuel
  induction fuel with
  | zero => intro acc; rfl
  | succ n ih => intro acc; exact ih (acc ++ [0])

/-- A successful `advance` shifted the old lookahead into `current`. -/
theorem advance_ok_cur {p : PState} {t : Token} {s : PState}
    (h : advance p = .ok t s) : s.cur = p.nxt := by
  unfold advance at h
  split_ifs at h with hc
  rcases e : next_token p.lex with ⟨r, L'⟩
  rw [e] at h
  cases r with
  | ok t' =>
    simp only [PRes.ok.injEq] at h
    rw [← h.2]
  | err m => simp at h
  | fatal m => simp at h
  | diverge => simp at h

/-- A successful `try_match` leaves a `current` token of the matched kind. -/
theorem try_match_true_cur {p : PState} {tt : JsonTokenType} {s : PState}
    (h : try_match p tt = .ok true s) : s.cur.ttype = tt := by
  unfold try_match at h
  split_ifs at h with hc
  · cases e : advance p with
    | ok t' s' =>
      rw [e] at h
      simp only [PRes.ok.injEq] at h
      rw [← h.2, advance_ok_cur e]
      exact hc
    | err m => rw [e] at h; simp at h
    | fatal m => rw [e] at h; simp at h
    | diverge => rw [e] at h; simp at h
  · simp at h

/-- The object key/value loop returns successfully only through
`try_match(RightBrace)`, so the last token it consumed is the closing
brace. -/
theorem objLoop_ok_cur : ∀ (fuel : Nat) (acc : List (List Nat × JsonValue))
    (p : PState) (v : JsonValue) (s : PState),
    parse_rule fuel (.objLoop acc) p = .ok v s → s.cur.ttype = .RightBrace := by
  intro fuel
  induction fuel with
  | zero =>
    intro acc p v s h
    simp [parse_rule] at h
  | succ n ih =>
    intro acc p v s h
    cases e1 : parse_string p with
    | err m => simp [parse_rule, e1] at h
    | fatal m => simp [parse_rule, e1] at h
    | diverge => simp [parse_rule, e1] at h
    | ok key p1 =>
      cases e2 : consume p1 .Colon "Expected \x27:\x27 after object key" with
      | err m => simp [parse_rule, e1, e2] at h
      | fatal m => simp [parse_rule, e1, e2] at h
      | diverge => simp [parse_rule, e1, e2] at h
      | ok t2 p2 =>
        cases e3 : parse_rule n .value p2 with
        | err m => simp [parse_rule, e1, e2, e3] at h
        | fatal m => simp [parse_rule, e1, e2, e3] at h
        | diverge => simp [parse_rule, e1, e2, e3] at h
        | ok v3 p3 =>
          cases e4 : try_match p3 .Comma with
          | err m => simp [parse_rule, e1, e2, e3, e4] at h
          | fatal m => simp [parse_rule, e1, e2, e3, e4] at h
          | diverge => simp [parse_rule, e1, e2, e3, e4] at h
          | ok b p4 =>
            cases b with
            | true =>
              simp only [parse_rule, e1, e2, e3, e4] at h
              exact ih _ p4 v s h
            | false =>
              cases e5 : try_match p4 .RightBrace with
              | err m => simp [parse_rule, e1, e2, e3, e4, e5] at h
              | fatal m => simp [parse_rule, e1, e2, e3, e4, e5] at h
              | diverge => simp [parse_rule, e1, e2, e3, e4, e5] at h
              | ok b5 p5 =>
                cases b5 with
                | false => simp [parse_rule, e1, e2, e3, e4, e5] at h
                | true =>
                  simp only [parse_rule, e1, e2, e3, e4, e5, PRes.ok.injEq] at h
                  rw [← h.2]
                  exact try_match_true_cur e5

/-- The object rule returns successfully only having consumed the closing
brace last (both for the empty object and through the loop). -/
theorem object_ok_cur : ∀ (fuel : Nat) (p : PState) (v : JsonValue) (s : PState),
    parse_rule fuel .object p = .ok v s → s.cur.ttype = .RightBrace := by
  intro fuel p v s h
  cases fuel with
  | zero => simp [parse_rule] at h
  | succ n =>
    by_cases hb : p.nxt.ttype = .RightBrace
    · cases e : advance p with
      | ok t s' =>
        simp only [parse_rule, hb, if_true, e, PRes.ok.injEq] at h
        rw [← h.2, advance_ok_cur e]
        exact hb
      | err m => simp [parse_rule, hb, e] at h
      | fatal m => simp [parse_rule, hb, e] at h
      | diverge => simp [parse_rule, hb, e] at h
    · simp only [parse_rule, if_neg hb] at h
      exact objLoop_ok_cur n [] p v s h

/-- Every successful `parse()` ends with the root object's closing brace as
the `current` (last consumed) token; `next` then holds the single lookahead
token fetched past it. -/
theorem parse_ok_cur : ∀ (fuel : Nat) (p : PState) (v : JsonValue) (s : PState),
    parse fuel p = .ok v s → s.cur.ttype = .RightBrace := by
  intro fuel p v s h
  unfold parse at h
  cases e1 : advance p with
  | ok t p1 =>
    simp only [e1] at h
    cases e2 : consume p1 .LeftBrace "Expected \x27\x7b\x27 at start of object" with
    | ok t2 p2 =>
      simp only [e2] at h
      exact object_ok_cur fuel p2 v s h
    | err m => simp [e2] at h
    | fatal m => simp [e2] at h
    | diverge => simp [e2] at h
  | err m => simp [e1] at h
  | fatal m => simp [e1] at h
  | diverge => simp [e1] at h


/-! ## Claim theorems -/

/-- C1: the claim says `parse()` on `{"a":1}` yields an object mapping "a"
to the number 1.0 and that a number lexeme contains the digit run with the
first digit exactly once.  The code duplicates the first digit: the lexeme
of the number token for source "1" is "11", and `{"a":1}` parses to an
object mapping "a" to 11 (11.0 as an `f32`), not 1.0. -/
theorem c1_number_first_digit_duplicated :
    parseValue (codes "\x7b\"a\":1\x7d") = .ok (.Object [(codes "a", .Number 11)]) ∧
    (next_token ⟨codes "1", none⟩).1 = .ok ⟨codes "11", .Number⟩ ∧
    (11 : Nat) ≠ 1 :=
  ⟨rfl, rfl, by decide⟩

/-- C2: the claim says `{"a":true,"b":false,"c":null}` parses successfully
with `Nil` for the null.  In the code the `Null` arm of `parse_value`
returns `Nil` without consuming the `Null` lookahead token, so the object
rule then sees `Null` where it expects `,` or closing brace and the parse
fails. -/
theorem c2_null_lookahead_never_consumed :
    parseValue (codes "\x7b\"a\":true,\"b\":false,\"c\":null\x7d") =
      .err "Expected \x27,\x27 or \x27\x7d\x27" ∧
    parseValue (codes "\x7b\"c\":null\x7d") = .err "Expected \x27,\x27 or \x27\x7d\x27" :=
  ⟨rfl, rfl⟩

/-- C3 counterexample: on input `{}1` `parse()` returns the object
successfully while the lookahead token is a `Number`, not `EOF` — the
tokens after the root object's closing brace were not consumed by the
parser. -/
theorem c3_trailing_tokens_counterexample :
    parseValue (codes "\x7b\x7d1") = .ok (.Object []) ∧
    lookaheadType (runParse (codes "\x7b\x7d1")) = some .Number ∧
    JsonTokenType.Number ≠ JsonTokenType.EOF :=
  ⟨rfl, rfl, by decide⟩

/-- C3 (amended): `parse()` does not consume the entire token stream.  On
every successful parse — any input, fuel and starting state — the last
token the grammar consumed is the root object's closing brace (the final
`current` token is a `RightBrace`), with exactly one lookahead token
fetched past it; that lookahead need not be EOF: with nothing after the
document it is EOF, but on `{}1` `parse()` still returns the value with
the trailing `Number` token unconsumed. -/
theorem c3_lookahead_after_successful_parse :
    (∀ (fuel : Nat) (p : PState) (v : JsonValue) (s : PState),
        parse fuel p = .ok v s → s.cur.ttype = .RightBrace) ∧
    (parseValue (codes "\x7b\x7d") = .ok (.Object []) ∧
      lookaheadType (runParse (codes "\x7b\x7d")) = some .EOF) ∧
    (parseValue (codes "\x7b\x7d1") = .ok (.Object []) ∧
      lookaheadType (runParse (codes "\x7b\x7d1")) = some .Number) :=
  ⟨parse_ok_cur, ⟨rfl, rfl⟩, ⟨rfl, rfl⟩⟩

/-- C3 amended witness: the closing-brace invariant applied to the concrete
parse of `{}`. -/
theorem c3_amended_witness :
    (⟨⟨[], none⟩, ⟨[125], .RightBrace⟩, ⟨[], .EOF⟩⟩ : PState).cur.ttype = .RightBrace :=
  c3_lookahead_after_successful_parse.1 4 (initP (codes "\x7b\x7d")) (.Object [])
    ⟨⟨[], none⟩, ⟨[125], .RightBrace⟩, ⟨[], .EOF⟩⟩ rfl

/-- C4: the claim says lexing an unterminated string terminates with an
error via EOF detection.  In the code `next_char` returns `Ok('\0')` once
the source is exhausted, the string loop breaks only on `'"'`, and `'\0'`
is simply accumulated — the loop re-reads the sentinel forever (first
conjunct: the loop state is stationary and every fuel yields `.diverge`),
so `parse()` on `{"a` never returns. -/
theorem c4_unterminated_string_never_terminates :
    (∀ (fuel : Nat) (acc : List Nat),
      lexStringF fuel acc ⟨[], none⟩ = (.diverge, ⟨[], none⟩)) ∧
    parseValue (codes "\x7b\"a") = .diverge :=
  ⟨lexStringF_empty, rfl⟩

/-- C5: a continuation byte (`0x80..=0xBF`) where a lead byte is expected
does fail with the "Invalid UTF-8" error, but a truncated multi-byte
sequence at end of input does not: the `get_next` closures unwrap the
exhausted iterator, so the character read panics instead of returning an
error. -/
theorem c5_truncated_sequence_panics :
    (∀ (b : Nat) (rest : List Nat), 128 ≤ b → b ≤ 191 →
      next_char ⟨b :: rest, none⟩ = (.err "Invalid UTF-8", ⟨rest, none⟩)) ∧
    next_char ⟨[0xC3], none⟩ = (.fatal "unwrap of None", ⟨[], none⟩) := by
  constructor
  · intro b rest h1 h2
    have h7 : ¬(b >>> 7 = 0) := by
      simp only [Nat.shiftRight_eq_div_pow]
      omega
    have h5 : ¬(b >>> 5 = 6) := by
      simp only [Nat.shiftRight_eq_div_pow]
      omega
    have h4 : ¬(b >>> 4 = 14) := by
      simp only [Nat.shiftRight_eq_div_pow]
      omega
    have h3 : ¬(b >>> 3 = 30) := by
      simp only [Nat.shiftRight_eq_div_pow]
      omega
    have e : next_codepoint_head b rest = (.ok none, rest) := by
      unfold next_codepoint_head
      rw [if_neg h7, if_neg h5, if_neg h4, if_neg h3]
    simp [next_char, e]
  · rfl

/-- C5 witness: the continuation byte `0x80` alone fails with the
invalid-UTF-8 error. -/
theorem c5_witness :
    next_char ⟨[128], none⟩ = (.err "Invalid UTF-8", ⟨[], none⟩) :=
  c5_truncated_sequence_panics.1 128 [] (by decide) (by decide)

/-- C6: the claim says every well-formed 2-, 3- or 4-byte sequence decodes
to its scalar value with the head payload above all continuation payloads.
The code shifts the 4-byte head payload by 12 instead of 18 (so
`F1 80 80 80`, the encoding of U+40000, decodes to 0x1000) and shifts the
2-byte head payload inside `u8` (so `C4 80`, the encoding of U+0100,
truncates to 0). -/
theorem c6_head_payload_misplaced :
    utf8EncodeRef 0x40000 = [0xF1, 0x80, 0x80, 0x80] ∧
    next_codepoint_head 0xF1 [0x80, 0x80, 0x80] = (.ok (some 0x1000), []) ∧
    (0x1000 : Nat) ≠ 0x40000 ∧
    utf8EncodeRef 0x100 = [0xC4, 0x80] ∧
    next_codepoint_head 0xC4 [0x80] = (.ok (some 0), []) ∧
    (0 : Nat) ≠ 0x100 :=
  ⟨rfl, rfl, by decide, rfl, rfl, by decide⟩

/-- C7: the claim says every lexer error reaches the caller as the error
result of `parse()`.  `advance` calls `self.lexer.next_token().unwrap()`,
so both a lex error (`@` is unexpected punctuation) and a decode error
(the stray continuation byte `0x80`) abort with a panic, not an error
return. -/
theorem c7_lexer_errors_panic_not_propagate :
    parseValue (codes "@") = .fatal "unexpected punctuation" ∧
    parseValue [0x80] = .fatal "Invalid UTF-8" :=
  ⟨rfl, rfl⟩

/-- C9: at most one character of pushback ever exists: `putback` onto an
occupied slot is the "putback called twice" panic, `try_match_char` either
consumes the pending pushback or leaves it untouched (never overwrites it),
and a character read never leaves a pushback behind. -/
theorem c9_single_pushback_slot :
    (∀ (L : LexState) (c : Nat), L.pushback.isSome →
      putback L c = .fatal "putback called twice") ∧
    (∀ (L : LexState) (c p : Nat), L.pushback = some p →
      (try_match_char L c).2.pushback = none ∨ (try_match_char L c).2.pushback = some p) ∧
    (∀ L : LexState, L.pushback = none → ((next_char L).2).pushback = none) := by
  refine ⟨?_, ?_, ?_⟩
  · intro L c h
    rcases L with ⟨src, pb⟩
    cases pb with
    | none => simp at h
    | some p => rfl
  · intro L c p h
    rcases L with ⟨src, pb⟩
    cases pb with
    | none => simp at h
    | some q =>
      cases h
      by_cases hpc : p = c <;> simp [try_match_char, hpc]
  · intro L h
    rcases L with ⟨src, pb⟩
    cases pb with
    | some q => simp at h
    | none =>
      cases src with
      | nil => rfl
      | cons b rest =>
        rcases e : next_codepoint_head b rest with ⟨r, rest'⟩
        rcases r with c | m | m | _ <;> simp [next_char, e]
        rcases c with _ | c <;> simp

/-- C9 witness: a concrete double `putback` panics, a pending pushback
survives a failed `try_match_char` untouched, and a plain read leaves no
pushback. -/
theorem c9_witness :
    putback ⟨[], some 65⟩ 66 = .fatal "putback called twice" ∧
    ((try_match_char ⟨[], some 65⟩ 67).2.pushback = none ∨
      (try_match_char ⟨[], some 65⟩ 67).2.pushback = some 65) ∧
    ((next_char ⟨[49], none⟩).2).pushback = none :=
  ⟨c9_single_pushback_slot.1 ⟨[], some 65⟩ 66 (by decide),
   c9_single_pushback_slot.2.1 ⟨[], some 65⟩ 67 65 (by decide),
   c9_single_pushback_slot.2.2 ⟨[49], none⟩ (by decide)⟩

/-- C10: the lexer cannot distinguish an interior NUL byte from the end of
the input: `next_char` returns the sentinel 0 both for byte `0x00` and for
an exhausted source, and `next_token` turns the sentinel into an `EOF`
token with an empty lexeme, exactly as for the truncated buffer. -/
theorem c10_interior_nul_is_eof :
    ∀ rest : List Nat,
      next_char ⟨0 :: rest, none⟩ = (.ok 0, ⟨rest, none⟩) ∧
      next_char ⟨[], none⟩ = (.ok 0, ⟨[], none⟩) ∧
      (next_token ⟨0 :: rest, none⟩).1 = .ok ⟨[], .EOF⟩ ∧
      (next_token ⟨[], none⟩).1 = .ok ⟨[], .EOF⟩ :=
  fun _ => ⟨rfl, rfl, rfl, rfl⟩

/-- Decoding consumes bytes: the remaining list returned by
`next_codepoint_head` is no longer than the input list. -/
theorem next_codepoint_head_len (b : Nat) (rest : List Nat) :
    (next_codepoint_head b rest).2.length ≤ rest.length := by
  unfold next_codepoint_head
  split_ifs
  · simp
  · rcases rest with _ | ⟨t1, s1⟩
    · simp
    · cases get_head_data b <;> simp
  · rcases rest with _ | ⟨t1, s1⟩
    · simp
    · rcases s1 with _ | ⟨t2, s2⟩
      · simp
      · cases get_head_data b <;> simp <;> omega
  · rcases rest with _ | ⟨t1, s1⟩
    · simp
    · rcases s1 with _ | ⟨t2, s2⟩
      · simp
      · rcases s2 with _ | ⟨t3, s3⟩
        · simp
        · cases get_head_data b <;> simp <;> omega
  · simp

/-- Either the lexer state is the stationary one (exhausted source, no
pushback, where `next_char` returns the sentinel without consuming), or
`next_char` strictly shrinks the state measure. -/
theorem next_char_progress (L : LexState) :
    L = ⟨[], none⟩ ∨ measL (next_char L).2 < measL L := by
  rcases L with ⟨src, pb⟩
  cases pb with
  | some p =>
    right
    simp [next_char, measL, pbCount]
  | none =>
    cases src with
    | nil => left; rfl
    | cons b rest =>
      right
      have hlen := next_codepoint_head_len b rest
      rcases e : next_codepoint_head b rest with ⟨r, rest'⟩
      rw [e] at hlen
      simp only at hlen
      rcases r with c | m | m | _
      · rcases c with _ | c <;> simp [next_char, e, measL, pbCount] <;> omega
      · simp [next_char, e, measL, pbCount]; omega
      · simp [next_char, e, measL, pbCount]; omega
      · simp [next_char, e, measL, pbCount]; omega

/-- `next_char` never grows the state measure. -/
theorem next_char_mono (L : LexState) : measL (next_char L).2 ≤ measL L := by
  rcases next_char_progress L with h | h
  · subst h; exact Nat.le_refl _
  · exact Nat.le_of_lt h

end Parsers
